import Mathlib

set_option maxRecDepth 8000

/-!
Shallow embedding of `src/main.py` (a password strength checker) and proofs
of the specification's claims about it.

Strings are modelled as Lean `String`s (sequences of Unicode code points,
matching Python's `str`); `len` corresponds to `String.length`.

Character classification: CPython's `str.isupper`, `str.islower` and
`str.isdigit` consult the Unicode database.  The tables below embed those
predicates exactly on the Basic Latin and Latin-1 Supplement blocks
(code points 0..255, verified against CPython); code points above 255 are
modelled as unclassified.  Every claim settled here is insensitive to the
classification of code points above 255, except where a concrete Latin-1
character decides it.  `string.punctuation` is a fixed 32-character ASCII
set and is embedded exactly.  Python's `str.splitlines` line boundaries and
`str.strip` whitespace are small fixed Unicode sets, embedded exactly and
in full.
-/

/-- Membership in Python's `string.punctuation`
(`!"#$%&'()*+,-./:;<=>?@[\]^_`:{|}~` — the ASCII code points 33-47, 58-64,
91-96 and 123-126), as used by `c in string.punctuation` in
`character_class_score`. -/
def pyIsPunct (c : Char) : Bool :=
  let n := c.toNat
  decide ((33 ≤ n ∧ n ≤ 47) ∨ (58 ≤ n ∧ n ≤ 64) ∨ (91 ≤ n ∧ n ≤ 96) ∨ (123 ≤ n ∧ n ≤ 126))

/-- Python's `str.isupper` on a single character, embedded exactly for code
points 0..255 (the uppercase letters `A`-`Z` and `À`-`Þ` except `×`);
code points above 255 are modelled as not uppercase. -/
def pyIsUpper (c : Char) : Bool :=
  let n := c.toNat
  decide ((65 ≤ n ∧ n ≤ 90) ∨ (192 ≤ n ∧ n ≤ 222 ∧ n ≠ 215))

/-- Python's `str.islower` on a single character, embedded exactly for code
points 0..255 (`a`-`z`, `ª`, `µ`, `º`, and `ß`-`ÿ` except `÷`); code points
above 255 are modelled as not lowercase. -/
def pyIsLower (c : Char) : Bool :=
  let n := c.toNat
  decide ((97 ≤ n ∧ n ≤ 122) ∨ n = 170 ∨ n = 181 ∨ n = 186 ∨ (223 ≤ n ∧ n ≤ 255 ∧ n ≠ 247))

/-- Python's `str.isdigit` on a single character, embedded exactly for code
points 0..255 (`0`-`9` and the superscripts `¹²³`); code points above 255
are modelled as not digits. -/
def pyIsDigit (c : Char) : Bool :=
  let n := c.toNat
  decide ((48 ≤ n ∧ n ≤ 57) ∨ n = 178 ∨ n = 179 ∨ n = 185)

/-- The four class flags returned by `character_class_score`
(the Python dict with keys `"upper"`, `"lower"`, `"digit"`, `"symbol"`,
in insertion order). -/
structure ClassFlags where
  upper : Bool
  lower : Bool
  digit : Bool
  symbol : Bool
  deriving DecidableEq

/-- Number of true flags, as computed by Python's `sum(flags.values())`. -/
def flagSum (f : ClassFlags) : Nat :=
  f.upper.toNat + f.lower.toNat + f.digit.toNat + f.symbol.toNat

/-- `character_class_score(password)` from `src/main.py`: each flag is
`any(...)` over the characters of the password, and the count is the sum of
the flag values. -/
def character_class_score (password : String) : Nat × ClassFlags :=
  let has_upper := password.data.any pyIsUpper
  let has_lower := password.data.any pyIsLower
  let has_digit := password.data.any pyIsDigit
  let has_symbol := password.data.any pyIsPunct
  (flagSum ⟨has_upper, has_lower, has_digit, has_symbol⟩,
   ⟨has_upper, has_lower, has_digit, has_symbol⟩)

/-- `length_bonus(password)` from `src/main.py`: one point for each of the
length thresholds 8, 12, 16, 20 that the password's length meets. -/
def length_bonus (password : String) : Nat :=
  (if password.length ≥ 8 then 1 else 0) +
  (if password.length ≥ 12 then 1 else 0) +
  (if password.length ≥ 16 then 1 else 0) +
  (if password.length ≥ 20 then 1 else 0)

/-- `check_password_strength(password)` from `src/main.py`: the class count
if fewer than four classes are present, otherwise class count plus length
bonus. -/
def check_password_strength (password : String) : Nat :=
  let class_count := (character_class_score password).1
  if class_count < 4 then
    class_count
  else
    class_count + length_bonus password

/-- `friendly_strength_message(score, class_flags=None, length=None)` from
`src/main.py`.  The two optional parameters are accepted and ignored by the
source; they are explicit here.  The score is an `Int` since Python's `int`
may be negative. -/
def friendly_strength_message (score : Int) (class_flags : Option ClassFlags)
    (length : Option Nat) : String :=
  if score = 0 then "🔴 Too weak"
  else if 1 ≤ score ∧ score ≤ 2 then "🔴 Weak"
  else if score = 3 then "🟡 Average"
  else if score = 4 then "🟡 Not that strong"
  else if 5 ≤ score ∧ score ≤ 6 then "✅ Strong"
  else if 7 ≤ score then "🏆 Extremely strong"
  else "Unknown"

/-- The observable outcome of `check_password` besides the returned score:
which branch printed, and what data it printed. -/
inductive Feedback where
  | tooCommon : Feedback
  | missingClasses : List String → Feedback
  | rated : Nat → String → Bool → Feedback
  deriving DecidableEq

/-- The list comprehension `[k for k, present in flags.items() if not
present]` from `check_password`: names of the absent classes, in the dict's
insertion order upper, lower, digit, symbol. -/
def missing_classes (flags : ClassFlags) : List String :=
  (([("upper", flags.upper), ("lower", flags.lower), ("digit", flags.digit),
     ("symbol", flags.symbol)].filter (fun kv => !kv.2)).map (fun kv => kv.1))

/-- `check_password(password, common_passwords)` from `src/main.py`, with
the common-password set supplied (the `None` default merely loads it from
disk first).  Returns the score together with the branch taken: the
too-common short circuit, the missing-classes report, or the rating report
(password length, rating text, and whether the lengthen-password tip is
printed, i.e. `score < 5`). -/
def check_password (password : String) (common_passwords : Finset String) :
    Nat × Feedback :=
  if password ∈ common_passwords then
    (0, Feedback.tooCommon)
  else
    let class_count := (character_class_score password).1
    let flags := (character_class_score password).2
    let score := check_password_strength password
    if class_count < 4 then
      (score, Feedback.missingClasses (missing_classes flags))
    else
      (score, Feedback.rated password.length
        (friendly_strength_message (score : Int) none none)
        (decide (score < 5)))

/-- Python's `str.splitlines` line boundaries (the exact full set:
LF, VT, FF, CR, FS, GS, RS, NEL, LINE SEPARATOR, PARAGRAPH SEPARATOR;
CRLF is treated as a single boundary by `pySplitlinesAux`). -/
def pyIsLineBreak (c : Char) : Bool :=
  let n := c.toNat
  decide (n = 10 ∨ n = 11 ∨ n = 12 ∨ n = 13 ∨ n = 28 ∨ n = 29 ∨ n = 30 ∨
          n = 133 ∨ n = 8232 ∨ n = 8233)

/-- Worker for `pySplitlines`: scans the text, emitting the accumulated line
at each boundary (CRLF counts once); a final fragment without a terminator
is emitted, a trailing terminator adds no empty line — Python's
`str.splitlines` behaviour. -/
def pySplitlinesAux : List Char → List Char → List (List Char)
  | [], acc => if acc = [] then [] else [acc.reverse]
  | '\x0d' :: '\x0a' :: rest, acc => acc.reverse :: pySplitlinesAux rest []
  | c :: rest, acc =>
      if pyIsLineBreak c then acc.reverse :: pySplitlinesAux rest []
      else pySplitlinesAux rest (c :: acc)

/-- Python's `str.splitlines` on a list of characters. -/
def pySplitlines (cs : List Char) : List (List Char) :=
  pySplitlinesAux cs []

/-- Python's `str.strip` whitespace set (the exact full set of code points
for which CPython strips: 9-13, 28-32, NEL, NBSP, OGHAM SPACE MARK, the
EN QUAD..HAIR SPACE range, LINE/PARAGRAPH SEPARATOR, NARROW NBSP,
MEDIUM MATHEMATICAL SPACE, IDEOGRAPHIC SPACE). -/
def pyIsSpace (c : Char) : Bool :=
  let n := c.toNat
  decide ((9 ≤ n ∧ n ≤ 13) ∨ (28 ≤ n ∧ n ≤ 32) ∨ n = 133 ∨ n = 160 ∨
          n = 5760 ∨ (8192 ≤ n ∧ n ≤ 8202) ∨ n = 8232 ∨ n = 8233 ∨
          n = 8239 ∨ n = 8287 ∨ n = 12288)

/-- Python's `str.strip()` on a list of characters: drop whitespace from
both ends. -/
def pyStrip (l : List Char) : List Char :=
  ((l.dropWhile pyIsSpace).reverse.dropWhile pyIsSpace).reverse

/-- `load_common_passwords(path)` from `src/main.py`.  The filesystem is
modelled by the argument: `none` when `path.exists()` is false, `some
content` for the file's text.  Mirrors
`set(line.strip() for line in content.splitlines() if line.strip())`. -/
def load_common_passwords (file : Option String) : Finset String :=
  match file with
  | none => ∅
  | some content =>
      (((pySplitlines content.data).filter
          (fun line => decide (pyStrip line ≠ []))).map
        (fun line => String.mk (pyStrip line))).toFinset

/-! Helper lemmas shared by the claim theorems. -/

lemma flagSum_le_four (f : ClassFlags) : flagSum f ≤ 4 := by
  rcases f with ⟨u, l, d, s⟩
  cases u <;> cases l <;> cases d <;> cases s <;> decide

lemma class_count_le_four (p : String) : (character_class_score p).1 ≤ 4 := by
  simpa [character_class_score] using
    flagSum_le_four ⟨p.data.any pyIsUpper, p.data.any pyIsLower,
      p.data.any pyIsDigit, p.data.any pyIsPunct⟩

lemma length_bonus_le_four (p : String) : length_bonus p ≤ 4 := by
  unfold length_bonus
  split_ifs <;> omega

lemma length_bonus_mono {s t : String} (h : s.length ≤ t.length) :
    length_bonus s ≤ length_bonus t := by
  unfold length_bonus
  split_ifs <;> omega

lemma length_bonus_of_length {s t : String} (h : s.length = t.length) :
    length_bonus s = length_bonus t := by
  unfold length_bonus
  rw [h]

lemma length_bonus_eq_count (p : String) :
    length_bonus p =
      ([8, 12, 16, 20].countP (fun t => decide (t ≤ p.length))) := by
  unfold length_bonus
  simp only [List.countP_cons, List.countP_nil, ge_iff_le]
  split_ifs <;> simp_all <;> omega

lemma strength_lt (p : String) (h : (character_class_score p).1 < 4) :
    check_password_strength p = (character_class_score p).1 := by
  unfold check_password_strength
  simp [h]

lemma strength_eq (p : String) (h : (character_class_score p).1 = 4) :
    check_password_strength p = 4 + length_bonus p := by
  unfold check_password_strength
  simp [h, Nat.add_comm]

lemma strength_le_eight (p : String) : check_password_strength p ≤ 8 := by
  have h1 := class_count_le_four p
  have h2 := length_bonus_le_four p
  simp only [check_password_strength]
  split_ifs <;> omega

/-! The claims. -/

/-- C1: for every string password, if the class count is below 4 the score
is exactly the class count (no length bonus), and if the class count is 4
the score is 4 plus the length bonus. -/
theorem c1_score_policy (password : String) :
    ((character_class_score password).1 < 4 →
      check_password_strength password = (character_class_score password).1) ∧
    ((character_class_score password).1 = 4 →
      check_password_strength password = 4 + length_bonus password) :=
  ⟨strength_lt password, strength_eq password⟩

/-- C1 witness: a 20-character single-class password scores exactly its
class count 1 (length bonus withheld), and an all-four-classes 8-character
password scores 4 plus its length bonus. -/
theorem c1_score_policy_witness :
    (character_class_score "aaaaaaaaaaaaaaaaaaaa").1 < 4 ∧
    check_password_strength "aaaaaaaaaaaaaaaaaaaa" =
      (character_class_score "aaaaaaaaaaaaaaaaaaaa").1 ∧
    check_password_strength "aaaaaaaaaaaaaaaaaaaa" = 1 ∧
    (character_class_score "Abc123!@").1 = 4 ∧
    check_password_strength "Abc123!@" = 4 + length_bonus "Abc123!@" :=
  ⟨by decide,
   (c1_score_policy "aaaaaaaaaaaaaaaaaaaa").1 (by decide),
   by decide,
   by decide,
   (c1_score_policy "Abc123!@").2 (by decide)⟩

/-- C2: the length bonus equals the number of thresholds in {8,12,16,20}
that the password's length meets; it is at most 4 and is monotone
non-decreasing in the password's length. -/
theorem c2_length_bonus_thresholds (password : String) :
    length_bonus password =
      ([8, 12, 16, 20].countP (fun t => decide (t ≤ password.length))) ∧
    length_bonus password ≤ 4 ∧
    ∀ q : String, password.length ≤ q.length →
      length_bonus password ≤ length_bonus q :=
  ⟨length_bonus_eq_count password, length_bonus_le_four password,
   fun _ h => length_bonus_mono h⟩

/-- C2 witness: at a concrete 13-character password the bonus is the count
of thresholds met, and it does not decrease for a longer password. -/
theorem c2_length_bonus_thresholds_witness :
    length_bonus "Abc123!@extra" =
      ([8, 12, 16, 20].countP (fun t => decide (t ≤ ("Abc123!@extra" : String).length))) ∧
    ("Abc123!@extra" : String).length ≤ ("Abc123!@extra-even-longer" : String).length ∧
    length_bonus "Abc123!@extra" ≤ length_bonus "Abc123!@extra-even-longer" :=
  ⟨(c2_length_bonus_thresholds "Abc123!@extra").1,
   by decide,
   (c2_length_bonus_thresholds "Abc123!@extra").2.2 "Abc123!@extra-even-longer" (by decide)⟩

/-- C3: each flag is true iff the password contains a character of that
class, the count equals the number of true flags, and the empty string
yields all flags false with count 0. -/
theorem c3_classify_flags (password : String) :
    ((character_class_score password).2.upper = true ↔
      ∃ c ∈ password.data, pyIsUpper c = true) ∧
    ((character_class_score password).2.lower = true ↔
      ∃ c ∈ password.data, pyIsLower c = true) ∧
    ((character_class_score password).2.digit = true ↔
      ∃ c ∈ password.data, pyIsDigit c = true) ∧
    ((character_class_score password).2.symbol = true ↔
      ∃ c ∈ password.data, pyIsPunct c = true) ∧
    (character_class_score password).1 = flagSum (character_class_score password).2 ∧
    character_class_score "" = (0, ⟨false, false, false, false⟩) := by
  refine ⟨?_, ?_, ?_, ?_, ?_, by decide⟩ <;>
    simp [character_class_score, List.any_eq_true]

/-- C4: the score returned by the evaluator is always in [0, 8], both for
the core scorer and for the composed entry point. -/
theorem c4_score_range (password : String) (common : Finset String) :
    check_password_strength password ≤ 8 ∧
    (check_password password common).1 ≤ 8 := by
  refine ⟨strength_le_eight password, ?_⟩
  simp only [check_password]
  split_ifs <;> simp [strength_le_eight]

/-- C5 counterexample: the claim says `rate(0)` is exactly the label
`"Too weak"`, but the source returns the emoji-prefixed string
`"🔴 Too weak"`. -/
theorem c5_label_counterexample :
    friendly_strength_message 0 none none ≠ "Too weak" := by decide

/-- C5 (amended): the rating is a pure function of the score alone (the
other two parameters are ignored), and follows the table with the source's
emoji-prefixed labels: score 0 ↦ "🔴 Too weak", 1-2 ↦ "🔴 Weak",
3 ↦ "🟡 Average", 4 ↦ "🟡 Not that strong", 5-6 ↦ "✅ Strong",
≥ 7 ↦ "🏆 Extremely strong", and any other (negative) score ↦ "Unknown". -/
theorem c5_rating_table (score : Int) (f g : Option ClassFlags) (l m : Option Nat) :
    friendly_strength_message score f l = friendly_strength_message score g m ∧
    (score = 0 → friendly_strength_message score f l = "🔴 Too weak") ∧
    (1 ≤ score → score ≤ 2 → friendly_strength_message score f l = "🔴 Weak") ∧
    (score = 3 → friendly_strength_message score f l = "🟡 Average") ∧
    (score = 4 → friendly_strength_message score f l = "🟡 Not that strong") ∧
    (5 ≤ score → score ≤ 6 → friendly_strength_message score f l = "✅ Strong") ∧
    (7 ≤ score → friendly_strength_message score f l = "🏆 Extremely strong") ∧
    (score < 0 → friendly_strength_message score f l = "Unknown") := by
  unfold friendly_strength_message
  refine ⟨?_, ?_, ?_, ?_, ?_, ?_, ?_, ?_⟩ <;> intros <;> split_ifs <;>
    first | rfl | omega

/-- C5 witness: the table evaluated at one score per bucket, and purity at
score 0 with differing ignored arguments. -/
theorem c5_rating_table_witness :
    friendly_strength_message 0 (some ⟨true, true, true, true⟩) (some 8) =
      friendly_strength_message 0 none none ∧
    friendly_strength_message 0 none none = "🔴 Too weak" ∧
    friendly_strength_message 2 none none = "🔴 Weak" ∧
    friendly_strength_message 3 none none = "🟡 Average" ∧
    friendly_strength_message 4 none none = "🟡 Not that strong" ∧
    friendly_strength_message 6 none none = "✅ Strong" ∧
    friendly_strength_message 8 none none = "🏆 Extremely strong" ∧
    friendly_strength_message (-1) none none = "Unknown" :=
  ⟨(c5_rating_table 0 (some ⟨true, true, true, true⟩) none (some 8) none).1,
   (c5_rating_table 0 none none none none).2.1 rfl,
   (c5_rating_table 2 none none none none).2.2.1 (by decide) (by decide),
   (c5_rating_table 3 none none none none).2.2.2.1 rfl,
   (c5_rating_table 4 none none none none).2.2.2.2.1 rfl,
   (c5_rating_table 6 none none none none).2.2.2.2.2.1 (by decide) (by decide),
   (c5_rating_table 8 none none none none).2.2.2.2.2.2.1 (by decide),
   (c5_rating_table (-1) none none none none).2.2.2.2.2.2.2 (by decide)⟩

/-- C6: a password that is an exact member of the common-password set
yields score 0 with the too-common outcome, bypassing classification,
whatever the password's composition or length. -/
theorem c6_common_short_circuit (password : String) (common : Finset String)
    (h : password ∈ common) :
    check_password password common = (0, Feedback.tooCommon) := by
  simp [check_password, h]

/-- C6 witness: a 20-character common password containing all four classes
still yields score 0 via the too-common branch. -/
theorem c6_common_short_circuit_witness :
    "P@ssw0rd123456789012" ∈ ({"P@ssw0rd123456789012"} : Finset String) ∧
    check_password "P@ssw0rd123456789012" {"P@ssw0rd123456789012"} =
      (0, Feedback.tooCommon) :=
  ⟨by decide, c6_common_short_circuit _ _ (by decide)⟩

/-- C7 counterexample: `É` (U+00C9) is outside the ASCII repertoire (code
point above 127, not ASCII punctuation), yet Python's Unicode-aware
`str.isupper` is true on it, so the one-character string `"É"` sets the
upper flag and has ClassCount 1, not 0 as the claim states. -/
theorem c7_nonascii_counterexample :
    127 < ('É' : Char).toNat ∧ pyIsPunct 'É' = false ∧
    (character_class_score "É").1 = 1 ∧
    (character_class_score "É").2.upper = true := by decide

/-- C7 (amended): the evaluator is total over all strings, but a non-ASCII
character can set a flag (see the counterexample): only characters
classified by none of the four predicates set no flag, and a string made
solely of such characters has all flags false and ClassCount 0. -/
theorem c7_unclassified_chars (password : String)
    (h : ∀ c ∈ password.data, pyIsUpper c = false ∧ pyIsLower c = false ∧
      pyIsDigit c = false ∧ pyIsPunct c = false) :
    character_class_score password = (0, ⟨false, false, false, false⟩) := by
  have hu : password.data.any pyIsUpper = false := by
    rw [List.any_eq_false]; intro c hc; simp [(h c hc).1]
  have hl : password.data.any pyIsLower = false := by
    rw [List.any_eq_false]; intro c hc; simp [(h c hc).2.1]
  have hd : password.data.any pyIsDigit = false := by
    rw [List.any_eq_false]; intro c hc; simp [(h c hc).2.2.1]
  have hs : password.data.any pyIsPunct = false := by
    rw [List.any_eq_false]; intro c hc; simp [(h c hc).2.2.2]
  simp [character_class_score, hu, hl, hd, hs, flagSum]

/-- C7 witness: a string of unclassified characters (pilcrow, space,
plus-minus) has all flags false and ClassCount 0. -/
theorem c7_unclassified_chars_witness :
    (∀ c ∈ ("¶ ±" : String).data, pyIsUpper c = false ∧ pyIsLower c = false ∧
      pyIsDigit c = false ∧ pyIsPunct c = false) ∧
    character_class_score "¶ ±" = (0, ⟨false, false, false, false⟩) :=
  ⟨by decide, c7_unclassified_chars "¶ ±" (by decide)⟩

/-- C8: the loader returns the empty set when the file does not exist, and
otherwise exactly the set of the file's whitespace-trimmed non-blank lines
(duplicates collapsed by the set construction). -/
theorem c8_loader_contract (content : String) (s : String) :
    load_common_passwords none = ∅ ∧
    (s ∈ load_common_passwords (some content) ↔
      ∃ line ∈ pySplitlines content.data,
        pyStrip line ≠ [] ∧ String.mk (pyStrip line) = s) := by
  refine ⟨rfl, ?_⟩
  simp only [load_common_passwords, List.mem_toFinset, List.mem_map,
    List.mem_filter, decide_eq_true_eq]
  tauto

/-- C9: the length bonus is a function of the password's length alone. -/
theorem c9_length_bonus_extensional (s t : String) (h : s.length = t.length) :
    length_bonus s = length_bonus t :=
  length_bonus_of_length h

/-- C9 witness: two different strings of equal length get the same bonus. -/
theorem c9_length_bonus_extensional_witness :
    ("abcdefgh" : String).length = ("ABC123!@" : String).length ∧
    length_bonus "abcdefgh" = length_bonus "ABC123!@" :=
  ⟨by decide, c9_length_bonus_extensional "abcdefgh" "ABC123!@" (by decide)⟩

/-- C10: the score returned by the composed entry point is 0 when the
password is in the common set and `check_password_strength password`
otherwise, in every branch. -/
theorem c10_returned_score (password : String) (common : Finset String) :
    (password ∈ common → (check_password password common).1 = 0) ∧
    (password ∉ common →
      (check_password password common).1 = check_password_strength password) := by
  constructor
  · intro h; simp [check_password, h]
  · intro h
    simp only [check_password, if_neg h]
    split_ifs <;> rfl

/-- C10 witness: both branches evaluated at concrete inputs. -/
theorem c10_returned_score_witness :
    ("abc" ∈ ({"abc"} : Finset String) ∧ (check_password "abc" {"abc"}).1 = 0) ∧
    ("xyz" ∉ ({"abc"} : Finset String) ∧
      (check_password "xyz" {"abc"}).1 = check_password_strength "xyz") :=
  ⟨⟨by decide, (c10_returned_score "abc" {"abc"}).1 (by decide)⟩,
   ⟨by decide, (c10_returned_score "xyz" {"abc"}).2 (by decide)⟩⟩
